import Mathlib

/-!
Shallow embedding of the GTrader repository (src/myriad_client.py and
src/api.py) for checking its natural-language specification.

Conventions of the embedding:
* Python `float` values that the code only passes through (never computes
  with) are modelled as rationals (`ℚ`).
* A Python `dict` used as a JSON body or query-parameter set is modelled
  as a `List (String × JVal)` in insertion order.
* A client operation that raises `ValueError` before calling
  `_make_request` is modelled as returning `.error msg`; returning
  `.ok req` means the operation reaches `_make_request`, i.e. a network
  call is made with exactly that request.
* Python truthiness of an `Optional[str]` (`if slug:`) is `truthyStr`:
  true exactly when the value is a non-empty string.
-/

/-- A JSON scalar value as placed into a request body or parameter dict. -/
inductive JVal where
  | s : String → JVal
  | i : Int → JVal
  | q : ℚ → JVal
deriving DecidableEq, Repr

/-- Python truthiness of an `Optional[str]`: `if slug:` is taken exactly
when the slug is present and non-empty. -/
def truthyStr : Option String → Bool
  | some s => s != ""
  | none => false

/-- An outgoing HTTP request as handed to `_make_request`: method,
endpoint path, and query parameters (in insertion order). -/
structure ApiRequest where
  method : String
  endpoint : String
  params : List (String × JVal)
deriving DecidableEq, Repr

/-- Error message of `get_market` when neither addressing mode is usable
(myriad_client.py line 214). -/
def marketAddrErr : String := "Must provide either slug or (market_id + network_id)"

/-- Error message of `get_market_events` / `get_market_holders` when
neither slug nor market_id is given (lines 254 and 288). -/
def eventsAddrErr : String := "Must provide either slug or market_id"

/-- Error message of `get_market_quote` when neither addressing mode is
usable (line 324). -/
def quoteAddrErr : String := "Must provide either market_slug or (market_id + network_id)"

/-- Error message of `get_market_quote` for a buy without value (line 333). -/
def buyValueErr : String := "For buy action, value is required"

/-- Error message of `get_market_quote` for a sell with neither value nor
shares (line 337). -/
def sellValueErr : String := "For sell action, either value or shares is required"

/-- Error message of `get_market_quote` for an unknown action (line 343). -/
def actionErr : String := "Action must be buy or sell"

/-- `MyriadAPIClient.get_market` (myriad_client.py lines 192-214): slug
lookup when the slug is truthy, else id+network lookup, else ValueError. -/
def get_market (market_id : Option Int) (slug : Option String)
    (network_id : Option Int) : Except String ApiRequest :=
  if truthyStr slug then
    .ok { method := "GET", endpoint := "/markets/" ++ slug.getD "", params := [] }
  else
    match market_id, network_id with
    | some m, some n =>
        .ok { method := "GET", endpoint := "/markets/" ++ toString m,
              params := [("network_id", JVal.i n)] }
    | _, _ => .error marketAddrErr

/-- `MyriadAPIClient.get_market_events` (lines 216-256): builds the query
params (page, limit, then since / until / network_id when present), then
picks the endpoint from slug, else market_id, else raises ValueError. -/
def get_market_events (market_id : Option Int) (slug : Option String)
    (network_id : Option Int) (page : Int) (limit : Int)
    (since : Option Int) (until_ : Option Int) : Except String ApiRequest :=
  let ps0 := [("page", JVal.i page), ("limit", JVal.i limit)]
  let ps1 := ps0 ++ (match since with | some v => [("since", JVal.i v)] | none => [])
  let ps2 := ps1 ++ (match until_ with | some v => [("until", JVal.i v)] | none => [])
  let ps3 := ps2 ++ (match network_id with | some v => [("network_id", JVal.i v)] | none => [])
  if truthyStr slug then
    .ok { method := "GET", endpoint := "/markets/" ++ slug.getD "" ++ "/events", params := ps3 }
  else
    match market_id with
    | some m => .ok { method := "GET", endpoint := "/markets/" ++ toString m ++ "/events",
                      params := ps3 }
    | none => .error eventsAddrErr

/-- `MyriadAPIClient.get_market_holders` (lines 258-290): query params
(page, limit, then network_id when present), endpoint from slug, else
market_id, else ValueError. -/
def get_market_holders (market_id : Option Int) (slug : Option String)
    (network_id : Option Int) (page : Int) (limit : Int) : Except String ApiRequest :=
  let ps0 := [("page", JVal.i page), ("limit", JVal.i limit)]
  let ps1 := ps0 ++ (match network_id with | some v => [("network_id", JVal.i v)] | none => [])
  if truthyStr slug then
    .ok { method := "GET", endpoint := "/markets/" ++ slug.getD "" ++ "/holders", params := ps1 }
  else
    match market_id with
    | some m => .ok { method := "GET", endpoint := "/markets/" ++ toString m ++ "/holders",
                      params := ps1 }
    | none => .error eventsAddrErr

/-- The parameters of `MyriadAPIClient.get_market_quote` (lines 292-302). -/
structure QuoteParams where
  outcome_id : Int
  action : String
  market_id : Option Int
  market_slug : Option String
  network_id : Option Int
  value : Option ℚ
  shares : Option ℚ
  slippage : ℚ
deriving DecidableEq, Repr

/-- `MyriadAPIClient.get_market_quote` (lines 292-345): resolves the
addressing mode into the initial body dict, adds outcome_id / action /
slippage, then branches on the action to pick value or shares; `.ok body`
means `_make_request("POST", "/markets/quote", json=body)` is reached. -/
def get_market_quote (r : QuoteParams) : Except String (List (String × JVal)) :=
  let addr : Except String (List (String × JVal)) :=
    if truthyStr r.market_slug then
      .ok [("market_slug", JVal.s (r.market_slug.getD ""))]
    else
      match r.market_id, r.network_id with
      | some m, some n => .ok [("market_id", JVal.i m), ("network_id", JVal.i n)]
      | _, _ => .error quoteAddrErr
  match addr with
  | .error e => .error e
  | .ok body0 =>
    let body1 := body0 ++ [("outcome_id", JVal.i r.outcome_id),
                           ("action", JVal.s r.action),
                           ("slippage", JVal.q r.slippage)]
    if r.action = "buy" then
      match r.value with
      | none => .error buyValueErr
      | some v => .ok (body1 ++ [("value", JVal.q v)])
    else if r.action = "sell" then
      match r.value, r.shares with
      | none, none => .error sellValueErr
      | some v, _ => .ok (body1 ++ [("value", JVal.q v)])
      | none, some sh => .ok (body1 ++ [("shares", JVal.q sh)])
    else
      .error actionErr

/-- The addressing mode of a quote request is resolvable: a truthy slug,
or both market_id and network_id present (lines 319-324). -/
def quoteAddrOk (r : QuoteParams) : Bool :=
  truthyStr r.market_slug || (r.market_id.isSome && r.network_id.isSome)

/-- The `TradeDecision` pydantic model (api.py lines 81-91). -/
structure TradeDecision where
  timestamp : String
  asset : String
  action : String
  conviction : String
  signal_type : String
  reasoning : String
  position_size : Option ℚ
  entry_price : Option ℚ
  take_profit : Option ℚ
  stop_loss : Option ℚ
deriving DecidableEq, Repr

/-- The `Trade` pydantic model (api.py lines 105-112). -/
structure Trade where
  timestamp : String
  asset : String
  action : String
  size : ℚ
  price : ℚ
  value : ℚ
  status : String
deriving DecidableEq, Repr

/-- The `Position` pydantic model (api.py lines 71-78). -/
structure Position where
  asset : String
  side : String
  size : ℚ
  entry_price : ℚ
  current_price : ℚ
  pnl : ℚ
  pnl_percentage : ℚ
deriving DecidableEq, Repr

/-- The `MarketAnalysis` pydantic model (api.py lines 94-102). -/
structure MarketAnalysis where
  asset : String
  timestamp : String
  price : ℚ
  change_24h : ℚ
  rsi : ℚ
  signal : String
  conviction : String
  quality_score : ℚ
deriving DecidableEq, Repr

/-- The `gtrader_state` global dict (api.py lines 45-53). -/
structure GTraderState where
  status : String
  last_update : Option String
  account_value : ℚ
  positions : List Position
  recent_decisions : List TradeDecision
  trade_history : List Trade
  market_analyses : List MarketAnalysis
deriving DecidableEq, Repr

/-- The initial value of `gtrader_state` at module import (api.py lines 45-53). -/
def initial_gtrader_state : GTraderState :=
  { status := "idle", last_update := none, account_value := 0,
    positions := [], recent_decisions := [], trade_history := [],
    market_analyses := [] }

/-- The `state_data` dict accepted by `POST /internal/update-state`:
each key present in the dict overwrites the corresponding field of
`gtrader_state` via `dict.update` (a field left `none` is absent). -/
structure StateData where
  status : Option String
  account_value : Option ℚ
  positions : Option (List Position)
  recent_decisions : Option (List TradeDecision)
  trade_history : Option (List Trade)
  market_analyses : Option (List MarketAnalysis)
deriving DecidableEq, Repr

/-- `update_state` (api.py lines 438-446): `gtrader_state.update(state_data)`
followed by setting `last_update` to the current time `now`. -/
def update_state (d : StateData) (now : String) (s : GTraderState) : GTraderState :=
  { status := d.status.getD s.status,
    last_update := some now,
    account_value := d.account_value.getD s.account_value,
    positions := d.positions.getD s.positions,
    recent_decisions := d.recent_decisions.getD s.recent_decisions,
    trade_history := d.trade_history.getD s.trade_history,
    market_analyses := d.market_analyses.getD s.market_analyses }

/-- `add_decision` (api.py lines 449-458): insert the decision at index 0
of `recent_decisions`, then keep only the first 100 entries. -/
def add_decision (d : TradeDecision) (s : GTraderState) : GTraderState :=
  { s with recent_decisions := (d :: s.recent_decisions).take 100 }

/-- `add_trade` (api.py lines 461-468): insert the trade at index 0 of
`trade_history` (no truncation). -/
def add_trade (t : Trade) (s : GTraderState) : GTraderState :=
  { s with trade_history := t :: s.trade_history }

/-- A state-mutating gateway operation: one of the three internal
ingestion endpoints of api.py. -/
inductive GatewayOp where
  | updateState : StateData → String → GatewayOp
  | addDecision : TradeDecision → GatewayOp
  | addTrade : Trade → GatewayOp
deriving DecidableEq, Repr

/-- Apply one gateway operation to the state. -/
def applyOp (s : GTraderState) : GatewayOp → GTraderState
  | .updateState d now => update_state d now s
  | .addDecision d => add_decision d s
  | .addTrade t => add_trade t s

/-- Apply a sequence of gateway operations, oldest first. -/
def applyOps (s : GTraderState) (ops : List GatewayOp) : GTraderState :=
  ops.foldl applyOp s

/-- Python `str.upper()` as used on the asset query: uppercase each
character (the tickers involved are ASCII). -/
def upper (s : String) : String := ⟨s.data.map Char.toUpper⟩

/-- `get_trade_history` (api.py lines 222-247), `GET /trades`: filter the
stored history by asset (the query is uppercased, the stored ticker is
compared verbatim) and by status (exact), then truncate to `limit`.
Python truthiness applies to both optional query strings. -/
def get_trade_history (limit : Nat) (asset : Option String)
    (status : Option String) (s : GTraderState) : List Trade :=
  let ts0 := s.trade_history
  let ts1 := if truthyStr asset then
    ts0.filter (fun t => t.asset == upper (asset.getD "")) else ts0
  let ts2 := if truthyStr status then
    ts1.filter (fun t => t.status == status.getD "") else ts1
  ts2.take limit

/-- The retry configuration installed by `MyriadAPIClient.__init__`
(myriad_client.py lines 49-58). -/
structure RetryConfig where
  total : Nat
  status_forcelist : List Nat
  allowed_methods : List String
deriving DecidableEq, Repr

/-- The concrete `Retry(total=3, status_forcelist=[429,500,502,503,504],
allowed_methods=["GET","POST"])` of `__init__`. -/
def clientRetryConfig : RetryConfig :=
  { total := 3, status_forcelist := [429, 500, 502, 503, 504],
    allowed_methods := ["GET", "POST"] }

/-- A response the upstream would return on one attempt. -/
structure HttpResponse where
  status : Nat
  body : String
deriving DecidableEq, Repr

/-- Outcome of a transport call that does not return a 2xx body. -/
inductive TransportError where
  | retriesExhausted : Nat → TransportError
  | httpError : Nat → TransportError
  | noResponse : TransportError
deriving DecidableEq, Repr

/-- Modelled from the spec: the retry behaviour of the urllib3 `Retry`
transport configured in `__init__` is library code not under src/; per
the spec, a response whose status is in the forcelist is retried when the
method is allowed and retries remain (total = allowed number of retries
beyond the first attempt), exhausting the budget fails with a
transient-upstream error, and any other non-2xx surfaces immediately
(`response.raise_for_status()`). `responses` lists the statuses the
upstream returns on successive attempts. -/
def runWithRetry (cfg : RetryConfig) (method : String) :
    Nat → List HttpResponse → Except TransportError String
  | _, [] => .error .noResponse
  | retriesLeft, r :: rest =>
    if r.status ∈ cfg.status_forcelist ∧ method ∈ cfg.allowed_methods then
      match retriesLeft with
      | 0 => .error (.retriesExhausted r.status)
      | n + 1 => runWithRetry cfg method n rest
    else if 400 ≤ r.status then
      .error (.httpError r.status)
    else
      .ok r.body

/-- `_make_request` through the session configured in `__init__`: the
retry budget is `clientRetryConfig.total`. -/
def make_request (method : String) (responses : List HttpResponse) :
    Except TransportError String :=
  runWithRetry clientRetryConfig method clientRetryConfig.total responses

/-! ## Helper lemmas -/

theorem truthyStr_some {s : String} (h : s ≠ "") : truthyStr (some s) = true := by
  simp [truthyStr, bne_iff_ne, h]

theorem truthyStr_none : truthyStr none = false := rfl

/-! ## Claims -/

/-- C1: every quote request with action buy and no value fails validation
with a ValueError before any network call, whether or not shares is
supplied (if the addressing mode is unresolvable the addressing error
fires instead, still before any network call). -/
theorem quote_buy_without_value_fails (r : QuoteParams)
    (ha : r.action = "buy") (hv : r.value = none) :
    ∃ e, get_market_quote r = Except.error e := by
  unfold get_market_quote
  by_cases hsl : truthyStr r.market_slug
  · exact ⟨buyValueErr, by simp [hsl, ha, hv]⟩
  · simp only [Bool.not_eq_true] at hsl
    cases hm : r.market_id <;> cases hn : r.network_id <;>
      simp [hsl, hm, hn, ha, hv]

/-- Witness for C1 at a concrete slug-addressed buy request with shares
supplied but no value. -/
theorem quote_buy_without_value_fails_witness :
    ∃ e, get_market_quote
      { outcome_id := 0, action := "buy", market_id := none,
        market_slug := some "mkt", network_id := none, value := none,
        shares := some 7, slippage := 5 / 1000 } = Except.error e :=
  quote_buy_without_value_fails _ rfl rfl

/-- C2: every quote request with action sell and neither value nor shares
fails validation with a ValueError before any network call. -/
theorem quote_sell_without_size_fails (r : QuoteParams)
    (ha : r.action = "sell") (hv : r.value = none) (hs : r.shares = none) :
    ∃ e, get_market_quote r = Except.error e := by
  unfold get_market_quote
  by_cases hsl : truthyStr r.market_slug
  · exact ⟨sellValueErr, by simp [hsl, ha, hv, hs]⟩
  · simp only [Bool.not_eq_true] at hsl
    cases hm : r.market_id <;> cases hn : r.network_id <;>
      simp [hsl, hm, hn, ha, hv, hs]

/-- Witness for C2 at a concrete id-addressed sell request. -/
theorem quote_sell_without_size_fails_witness :
    ∃ e, get_market_quote
      { outcome_id := 1, action := "sell", market_id := some 12,
        market_slug := none, network_id := some 2741, value := none,
        shares := none, slippage := 5 / 1000 } = Except.error e :=
  quote_sell_without_size_fails _ rfl rfl rfl

/-- C3: for a sell quote with both value and shares supplied, the body
that reaches the network contains the key value with the supplied value
and contains no key shares. -/
theorem quote_sell_both_prefers_value (r : QuoteParams) (v sh : ℚ)
    (ha : r.action = "sell") (hv : r.value = some v) (hs : r.shares = some sh)
    (body : List (String × JVal)) (hok : get_market_quote r = Except.ok body) :
    ("value", JVal.q v) ∈ body ∧ ∀ x, ("shares", x) ∉ body := by
  unfold get_market_quote at hok
  by_cases hsl : truthyStr r.market_slug
  · simp [hsl, ha, hv, hs] at hok
    subst hok
    refine ⟨by simp, fun x => by simp⟩
  · simp only [Bool.not_eq_true] at hsl
    cases hm : r.market_id <;> cases hn : r.network_id <;>
      simp [hsl, hm, hn, ha, hv, hs] at hok
    subst hok
    refine ⟨by simp, fun x => by simp⟩

/-- Witness for C3 at a concrete slug-addressed sell request with both
value and shares. -/
theorem quote_sell_both_prefers_value_witness :
    ("value", JVal.q 25) ∈
        [("market_slug", JVal.s "mkt"), ("outcome_id", JVal.i 1),
         ("action", JVal.s "sell"), ("slippage", JVal.q (5 / 1000)),
         ("value", JVal.q 25)] ∧
      ∀ x, ("shares", x) ∉
        [("market_slug", JVal.s "mkt"), ("outcome_id", JVal.i 1),
         ("action", JVal.s "sell"), ("slippage", JVal.q (5 / 1000)),
         ("value", JVal.q 25)] :=
  quote_sell_both_prefers_value
    { outcome_id := 1, action := "sell", market_id := none,
      market_slug := some "mkt", network_id := none, value := some 25,
      shares := some 3, slippage := 5 / 1000 } 25 3 rfl rfl rfl _ rfl

/-- C10: every quote body that reaches the network contains outcome_id,
action and slippage, with slippage exactly the caller-supplied value
(no range validation is applied to it). -/
theorem quote_body_fixed_keys (r : QuoteParams) (body : List (String × JVal))
    (hok : get_market_quote r = Except.ok body) :
    ("outcome_id", JVal.i r.outcome_id) ∈ body ∧
      ("action", JVal.s r.action) ∈ body ∧
      ("slippage", JVal.q r.slippage) ∈ body := by
  unfold get_market_quote at hok
  by_cases hsl : truthyStr r.market_slug = true <;>
    by_cases hb : r.action = "buy" <;>
    by_cases hse : r.action = "sell" <;>
    cases hv : r.value <;> cases hs : r.shares <;>
    cases hm : r.market_id <;> cases hn : r.network_id <;>
    simp [hsl, hb, hse, hv, hs, hm, hn] at hok <;>
    (subst hok; exact ⟨by simp, by simp [hb, hse], by simp⟩)

/-- Witness for C10 at a concrete buy request whose slippage 2 lies
outside [0, 1) and is transmitted unchanged. -/
theorem quote_body_fixed_keys_witness :
    ("outcome_id", JVal.i 4) ∈
        [("market_slug", JVal.s "mkt"), ("outcome_id", JVal.i 4),
         ("action", JVal.s "buy"), ("slippage", JVal.q 2),
         ("value", JVal.q 10)] ∧
      ("action", JVal.s "buy") ∈
        [("market_slug", JVal.s "mkt"), ("outcome_id", JVal.i 4),
         ("action", JVal.s "buy"), ("slippage", JVal.q 2),
         ("value", JVal.q 10)] ∧
      ("slippage", JVal.q 2) ∈
        [("market_slug", JVal.s "mkt"), ("outcome_id", JVal.i 4),
         ("action", JVal.s "buy"), ("slippage", JVal.q 2),
         ("value", JVal.q 10)] :=
  quote_body_fixed_keys
    { outcome_id := 4, action := "buy", market_id := none,
      market_slug := some "mkt", network_id := none, value := some 10,
      shares := none, slippage := 2 } _ rfl

/-- C4: the addressing mode is resolved before the action is validated:
with an unresolvable addressing mode the quote fails with the addressing
error whatever the action, value and shares are, and with a resolvable
addressing mode an action other than buy or sell fails with the action
error; in both cases no network call is made. -/
theorem quote_validation_order (r : QuoteParams) :
    (quoteAddrOk r = false → get_market_quote r = Except.error quoteAddrErr) ∧
    (quoteAddrOk r = true → r.action ≠ "buy" → r.action ≠ "sell" →
      get_market_quote r = Except.error actionErr) := by
  constructor
  · intro h
    unfold get_market_quote
    rw [quoteAddrOk, Bool.or_eq_false_iff] at h
    obtain ⟨hsl, hmn⟩ := h
    cases hm : r.market_id <;> cases hn : r.network_id <;>
      rw [hm, hn] at hmn <;> simp at hmn <;> simp [hsl, hm, hn]
  · intro h hb hse
    unfold get_market_quote
    rw [quoteAddrOk, Bool.or_eq_true] at h
    by_cases hsl : truthyStr r.market_slug = true
    · simp [hsl, hb, hse]
    · have hmn : (r.market_id.isSome && r.network_id.isSome) = true := by
        rcases h with h | h
        · exact absurd h hsl
        · exact h
      cases hm : r.market_id <;> cases hn : r.network_id <;>
        rw [hm, hn] at hmn <;> simp at hmn <;> simp [hsl, hm, hn, hb, hse]

/-- Witness for C4: a request with no addressing mode and an invalid
action fails with the addressing error, and the same invalid action with
a resolved addressing mode fails with the action error. -/
theorem quote_validation_order_witness :
    get_market_quote
        { outcome_id := 0, action := "hold", market_id := none,
          market_slug := none, network_id := none, value := none,
          shares := none, slippage := 5 / 1000 } = Except.error quoteAddrErr ∧
      get_market_quote
        { outcome_id := 0, action := "hold", market_id := none,
          market_slug := some "mkt", network_id := none, value := none,
          shares := none, slippage := 5 / 1000 } = Except.error actionErr :=
  ⟨(quote_validation_order _).1 rfl,
   (quote_validation_order _).2 rfl (by decide) (by decide)⟩

/-- The endpoint of a successful client request, none on a ValueError. -/
def endpointOf : Except String ApiRequest → Option String
  | .ok req => some req.endpoint
  | .error _ => none

/-- C5: for every market-addressed operation, when a (truthy) slug and
the full (market_id, network_id) pair are both supplied, the slug wins:
each operation behaves exactly as if the pair had not been supplied, the
endpoint is the slug-based one, no error is raised for the redundant
combination, and the quote body carries the slug and no market_id or
network_id key. -/
theorem slug_precedence (sl : String) (hsl : sl ≠ "") (m n : Int)
    (r : QuoteParams) (hr : r.market_slug = some sl)
    (page limit : Int) (since until_ : Option Int) :
    (get_market (some m) (some sl) (some n) = get_market none (some sl) none ∧
     endpointOf (get_market (some m) (some sl) (some n)) =
       some ("/markets/" ++ sl)) ∧
    (get_market_quote { r with market_id := some m, network_id := some n } =
       get_market_quote { r with market_id := none, network_id := none } ∧
     ∀ body, get_market_quote r = Except.ok body →
       ("market_slug", JVal.s sl) ∈ body ∧
       (∀ x, ("market_id", x) ∉ body) ∧ (∀ x, ("network_id", x) ∉ body)) ∧
    (get_market_events (some m) (some sl) (some n) page limit since until_ =
       get_market_events none (some sl) (some n) page limit since until_ ∧
     endpointOf (get_market_events (some m) (some sl) (some n) page limit since until_) =
       some ("/markets/" ++ sl ++ "/events")) ∧
    (get_market_holders (some m) (some sl) (some n) page limit =
       get_market_holders none (some sl) (some n) page limit ∧
     endpointOf (get_market_holders (some m) (some sl) (some n) page limit) =
       some ("/markets/" ++ sl ++ "/holders")) := by
  have ht := truthyStr_some hsl
  refine ⟨⟨?_, ?_⟩, ⟨?_, ?_⟩, ⟨?_, ?_⟩, ?_, ?_⟩
  · simp [get_market, ht]
  · simp [get_market, ht, endpointOf]
  · unfold get_market_quote
    simp [hr, ht]
  · intro body hok
    unfold get_market_quote at hok
    rw [hr] at hok
    simp only [ht, if_true] at hok
    by_cases hb : r.action = "buy" <;> by_cases hse : r.action = "sell" <;>
      cases hv : r.value <;> cases hs : r.shares <;>
      simp [hb, hse, hv, hs] at hok <;>
      (subst hok; exact ⟨by simp, fun x => by simp, fun x => by simp⟩)
  · simp [get_market_events, ht]
  · simp [get_market_events, ht, endpointOf]
  · simp [get_market_holders, ht]
  · simp [get_market_holders, ht, endpointOf]

/-- Witness for C5 at slug abc, market_id 1, network_id 2741 and a
concrete buy quote request carrying both addressing modes. -/
theorem slug_precedence_witness :
    get_market (some 1) (some "abc") (some 2741) =
      get_market none (some "abc") none ∧
    get_market_quote
        { outcome_id := 0, action := "buy", market_id := some 1,
          market_slug := some "abc", network_id := some 2741,
          value := some 10, shares := none, slippage := 5 / 1000 } =
      get_market_quote
        { outcome_id := 0, action := "buy", market_id := none,
          market_slug := some "abc", network_id := none,
          value := some 10, shares := none, slippage := 5 / 1000 } ∧
    get_market_events (some 1) (some "abc") (some 2741) 1 50 none none =
      get_market_events none (some "abc") (some 2741) 1 50 none none ∧
    get_market_holders (some 1) (some "abc") (some 2741) 1 50 =
      get_market_holders none (some "abc") (some 2741) 1 50 :=
  have h := slug_precedence "abc" (by decide) 1 2741
    { outcome_id := 0, action := "buy", market_id := some 1,
      market_slug := some "abc", network_id := some 2741,
      value := some 10, shares := none, slippage := 5 / 1000 }
    rfl 1 50 none none
  ⟨h.1.1, h.2.1.1, h.2.2.1.1, h.2.2.2.1⟩


/-- C6 counterexample: `get_market_events` and `get_market_holders`
called with market_id 5 but no network_id and no slug do NOT fail: each
proceeds to a network call on the id-based endpoint, although neither a
slug nor the full (market_id, network_id) pair was supplied. -/
theorem events_holders_no_network_id_counterexample :
    get_market_events (some 5) none none 1 50 none none =
      Except.ok { method := "GET", endpoint := "/markets/5/events",
                  params := [("page", JVal.i 1), ("limit", JVal.i 50)] } ∧
    get_market_holders (some 5) none none 1 50 =
      Except.ok { method := "GET", endpoint := "/markets/5/holders",
                  params := [("page", JVal.i 1), ("limit", JVal.i 50)] } := by
  constructor <;> rfl

/-- C6 amended: `get_market_events` and `get_market_holders` require
only a truthy slug or a market_id; they fail with the invalid-argument
addressing error exactly when both are missing, and a market_id without
network_id is accepted (network_id is never required by them). -/
theorem events_holders_addressing (market_id : Option Int)
    (slug : Option String) (network_id : Option Int) (page limit : Int)
    (since until_ : Option Int) :
    (get_market_events market_id slug network_id page limit since until_ =
        Except.error eventsAddrErr ↔
      truthyStr slug = false ∧ market_id = none) ∧
    (get_market_holders market_id slug network_id page limit =
        Except.error eventsAddrErr ↔
      truthyStr slug = false ∧ market_id = none) := by
  by_cases hsl : truthyStr slug = true <;> cases hm : market_id <;>
    constructor <;> simp [get_market_events, get_market_holders, hsl, hm]

theorem take_append_take {α : Type} (a b : List α) (n : Nat) :
    (a ++ b.take n).take n = (a ++ b).take n := by
  rw [List.take_append_eq_append_take, List.take_append_eq_append_take,
      List.take_take, Nat.min_eq_left (Nat.sub_le n a.length)]

theorem add_decision_foldl (ds : List TradeDecision) (s : GTraderState)
    (h : s.recent_decisions.length ≤ 100) :
    (ds.foldl (fun st d => add_decision d st) s).recent_decisions =
      (ds.reverse ++ s.recent_decisions).take 100 := by
  induction ds generalizing s with
  | nil =>
    simp only [List.foldl_nil, List.reverse_nil, List.nil_append]
    exact (List.take_of_length_le h).symm
  | cons d tl ih =>
    rw [List.foldl_cons,
        ih (add_decision d s) (by simp [add_decision]),
        show (add_decision d s).recent_decisions =
          (d :: s.recent_decisions).take 100 from rfl,
        take_append_take]
    simp

/-- A decision value used in concrete runs. -/
def sampleDecision : TradeDecision :=
  { timestamp := "2024-01-01T00:00:00", asset := "BTC", action := "buy",
    conviction := "high", signal_type := "momentum", reasoning := "r",
    position_size := none, entry_price := none, take_profit := none,
    stop_loss := none }

/-- C7 counterexample: one gateway operation — an update-state ingest
whose recent_decisions field holds 101 entries — leaves the
recent-decisions list at 101 entries, exceeding the claimed bound of 100. -/
theorem recent_decisions_bound_counterexample :
    ((applyOps initial_gtrader_state
        [GatewayOp.updateState
          { status := none, account_value := none, positions := none,
            recent_decisions := some (List.replicate 101 sampleDecision),
            trade_history := none, market_analyses := none }
          "2024-01-01T00:00:01"]).recent_decisions).length = 101 := by
  simp [applyOps, applyOp, update_state]

/-- C7 amended: under add-decision operations alone the recent-decisions
list never exceeds 100 entries and each insertion lands at the head
(update-state ingests can replace the list wholesale and escape the
bound); ingesting 105 decisions into an empty list leaves exactly the
last 100, newest first, the 5 oldest evicted. -/
theorem recent_decisions_bound_amended :
    (∀ (s : GTraderState) (d : TradeDecision),
        ((add_decision d s).recent_decisions).length ≤ 100) ∧
    (∀ (s : GTraderState) (d : TradeDecision),
        ((add_decision d s).recent_decisions).head? = some d) ∧
    (∀ ds : List TradeDecision, ds.length = 105 →
        (ds.foldl (fun st d => add_decision d st)
            initial_gtrader_state).recent_decisions = (ds.drop 5).reverse ∧
        ((ds.foldl (fun st d => add_decision d st)
            initial_gtrader_state).recent_decisions).length = 100) := by
  refine ⟨?_, ?_, ?_⟩
  · intro s d
    simp [add_decision]
  · intro s d
    simp [add_decision]
  · intro ds hds
    have h : (ds.foldl (fun st d => add_decision d st)
        initial_gtrader_state).recent_decisions = (ds.drop 5).reverse := by
      rw [add_decision_foldl ds initial_gtrader_state (by simp [initial_gtrader_state]),
          List.reverse_drop]
      simp [initial_gtrader_state, hds]
    refine ⟨h, ?_⟩
    rw [h]
    simp [hds]

/-- Witness for C7 amended at 105 copies of a concrete decision ingested
into the initial state. -/
theorem recent_decisions_bound_amended_witness :
    ((List.replicate 105 sampleDecision).foldl
        (fun st d => add_decision d st) initial_gtrader_state).recent_decisions =
      ((List.replicate 105 sampleDecision).drop 5).reverse ∧
    (((List.replicate 105 sampleDecision).foldl
        (fun st d => add_decision d st) initial_gtrader_state).recent_decisions).length = 100 :=
  recent_decisions_bound_amended.2.2 (List.replicate 105 sampleDecision)
    (by simp)

/-- C8: through the retry policy of `__init__` (total 3 retries on
statuses 429/500/502/503/504 for GET and POST), a call receiving three
consecutive 503 responses followed by a 200 succeeds with the 200 body,
and a call receiving four consecutive 503 responses exhausts the retry
budget and fails with a transient-upstream error; the same holds for
POST. -/
theorem retry_three_503_then_200 :
    make_request "GET"
        [{ status := 503, body := "" }, { status := 503, body := "" },
         { status := 503, body := "" }, { status := 200, body := "payload" }] =
      Except.ok "payload" ∧
    make_request "GET"
        [{ status := 503, body := "" }, { status := 503, body := "" },
         { status := 503, body := "" }, { status := 503, body := "" }] =
      Except.error (TransportError.retriesExhausted 503) ∧
    make_request "POST"
        [{ status := 503, body := "" }, { status := 503, body := "" },
         { status := 503, body := "" }, { status := 200, body := "payload" }] =
      Except.ok "payload" ∧
    make_request "POST"
        [{ status := 503, body := "" }, { status := 503, body := "" },
         { status := 503, body := "" }, { status := 503, body := "" }] =
      Except.error (TransportError.retriesExhausted 503) :=
  ⟨rfl, rfl, rfl, rfl⟩

/-- A trade stored with a lowercase asset ticker. -/
def lowercaseTrade : Trade :=
  { timestamp := "t1", asset := "btc", action := "buy", size := 1,
    price := 100, value := 100, status := "filled" }

/-- The same trade stored with the uppercase asset ticker. -/
def uppercaseTrade : Trade :=
  { timestamp := "t1", asset := "BTC", action := "buy", size := 1,
    price := 100, value := 100, status := "filled" }

/-- C9 counterexample: the asset filter of `GET /trades` is not
case-insensitive on the stored ticker: the query asset BTC does not
match a stored trade whose asset is btc (the result is empty), while the
query asset btc does match a stored BTC trade, because only the query is
uppercased. -/
theorem trades_filter_counterexample :
    get_trade_history 50 (some "BTC") (some "filled")
        { initial_gtrader_state with trade_history := [lowercaseTrade] } = [] ∧
    get_trade_history 50 (some "btc") (some "filled")
        { initial_gtrader_state with trade_history := [uppercaseTrade] } =
      [uppercaseTrade] := by
  constructor <;> rfl

/-- C9 amended: with both filters supplied (non-empty), `GET /trades`
returns only stored trades whose asset equals the UPPERCASED query
asset and whose status equals the status query exactly; the query side
of the asset comparison is case-insensitive but the stored side is not. -/
theorem trades_filter_amended (limit : Nat) (a st : String)
    (s : GTraderState) (ha : a ≠ "") (hst : st ≠ "") :
    ∀ t ∈ get_trade_history limit (some a) (some st) s,
      t.asset = upper a ∧ t.status = st ∧ t ∈ s.trade_history := by
  intro t ht
  unfold get_trade_history at ht
  rw [truthyStr_some ha, truthyStr_some hst] at ht
  simp only [if_true] at ht
  have ht2 := List.take_subset _ _ ht
  rw [List.mem_filter, List.mem_filter] at ht2
  obtain ⟨⟨hmem, hasset⟩, hstatus⟩ := ht2
  exact ⟨by simpa using hasset, by simpa using hstatus, hmem⟩

/-- Witness for C9 amended: the lowercase query btc against a stored
BTC/filled trade. -/
theorem trades_filter_amended_witness :
    uppercaseTrade.asset = upper "btc" ∧
    uppercaseTrade.status = "filled" ∧
    uppercaseTrade ∈
      ({ initial_gtrader_state with
          trade_history := [uppercaseTrade] } : GTraderState).trade_history :=
  trades_filter_amended 50 "btc" "filled"
    { initial_gtrader_state with trade_history := [uppercaseTrade] }
    (by decide) (by decide) uppercaseTrade (by decide)
